import Mathlib

/-!
Shallow embedding of the song-database pipeline: preprocessing
(cleaning, filtering, loading into the relational schema), the ranking
calculator, and the three analytical queries (artist popularity by genre,
genre statistics by year, top-artist ranking).  Numeric columns are
modelled as rationals, SQL tables as lists, and fallible operations as
`Except` or `Option` values.
-/

/-- Average of a list of rationals, as SQL AVG computes it. -/
def listAvg (l : List ℚ) : ℚ := l.sum / l.length

/-- Round a rational half away from zero to an integer. -/
def roundHalfAway (q : ℚ) : ℤ := if 0 ≤ q then ⌊q + 1/2⌋ else ⌈q - 1/2⌉

/-- Round to `n` decimal places, half away from zero, as SQLite ROUND does. -/
def roundTo (n : ℕ) (q : ℚ) : ℚ := (roundHalfAway (q * 10 ^ n) : ℚ) / 10 ^ n

theorem roundHalfAway_intCast (z : ℤ) : roundHalfAway (z : ℚ) = z := by
  unfold roundHalfAway
  split
  · rw [Int.floor_int_add]
    norm_num
  · rw [sub_eq_add_neg, add_comm, Int.ceil_add_int]
    norm_num

theorem roundTo_eq_self (n : ℕ) (q : ℚ) (z : ℤ) (h : q * 10 ^ n = (z : ℚ)) :
    roundTo n q = q := by
  unfold roundTo
  rw [h, roundHalfAway_intCast, ← h]
  field_simp

theorem roundTo_intCast (n : ℕ) (z : ℤ) : roundTo n (z : ℚ) = z := by
  refine roundTo_eq_self n _ (z * 10 ^ n) ?_
  push_cast
  ring

attribute [irreducible] roundHalfAway roundTo

/-- Lowercase a string (ASCII), character by character. -/
def lowerStr (s : String) : String := String.mk (s.data.map Char.toLower)

/-- Does the first character list start with the second one? -/
def leadsChars : List Char → List Char → Bool
  | [], _ => true
  | _ :: _, [] => false
  | a :: as, b :: bs => a = b && leadsChars as bs

/-- Does the pattern occur contiguously inside the character list? -/
def insideChars (p : List Char) : List Char → Bool
  | [] => leadsChars p []
  | c :: rest => leadsChars p (c :: rest) || insideChars p rest

/-- Substring containment, the semantics of SQL `LIKE` with wildcards on both sides. -/
def strContains (s p : String) : Bool := insideChars p.data s.data

/-- Split a character list on runs of whitespace, dropping empty pieces,
as the Python `str.split()` with no separator does. -/
def splitWsAux : List Char → List Char → List String
  | [], acc => if acc.isEmpty then [] else [String.mk acc.reverse]
  | c :: cs, acc =>
    if c.isWhitespace then
      (if acc.isEmpty then [] else [String.mk acc.reverse]) ++ splitWsAux cs []
    else splitWsAux cs (c :: acc)

/-- Whitespace tokenisation of a string. -/
def splitWs (s : String) : List String := splitWsAux s.data []

/-- Split a character list at every occurrence of a separator character,
keeping empty pieces, as the Python `str.split(sep)` does. -/
def splitOnCharAux (sep : Char) : List Char → List Char → List (List Char)
  | [], acc => [acc.reverse]
  | c :: cs, acc =>
    if c = sep then acc.reverse :: splitOnCharAux sep cs []
    else splitOnCharAux sep cs (c :: acc)

/-- Strip whitespace from both ends of a character list, as `str.strip()` does. -/
def trimChars (l : List Char) : List Char :=
  ((l.dropWhile Char.isWhitespace).reverse.dropWhile Char.isWhitespace).reverse

/-- Genre-field cleaning from `load_and_clean_data`: split the raw genre string on
commas, strip whitespace from each token, and drop empty tokens and the
literal placeholder `set()`. -/
def clean_genres (raw : String) : List String :=
  ((splitOnCharAux ',' raw.data []).map (fun cs => String.mk (trimChars cs))).filter
    (fun g => g ≠ "" && g ≠ "set()")

/-- Insert an element into a list sorted by `le`, before the first element it
compares `le` to; the building block of a stable insertion sort. -/
def insertLe (le : α → α → Bool) (a : α) : List α → List α
  | [] => [a]
  | b :: bs => if le a b then a :: b :: bs else b :: insertLe le a bs

/-- Stable insertion sort by a boolean comparator; the model of `ORDER BY`. -/
def sortByLe (le : α → α → Bool) : List α → List α
  | [] => []
  | a :: as => insertLe le a (sortByLe le as)

theorem mem_insertLe (le : α → α → Bool) (a x : α) (l : List α) :
    x ∈ insertLe le a l ↔ x = a ∨ x ∈ l := by
  induction l with
  | nil => simp [insertLe]
  | cons b bs ih =>
    by_cases hab : le a b
    · simp [insertLe, hab]
    · simp only [insertLe, hab]
      simp [ih]
      tauto

theorem perm_insertLe (le : α → α → Bool) (a : α) (l : List α) :
    List.Perm (insertLe le a l) (a :: l) := by
  induction l with
  | nil => exact List.Perm.refl _
  | cons b bs ih =>
    by_cases hab : le a b
    · simp [insertLe, hab]
    · simp only [insertLe, hab]
      exact (List.Perm.cons b ih).trans (List.Perm.swap a b bs)

theorem perm_sortByLe (le : α → α → Bool) (l : List α) :
    List.Perm (sortByLe le l) l := by
  induction l with
  | nil => exact List.Perm.refl _
  | cons a as ih => exact (perm_insertLe le a (sortByLe le as)).trans (List.Perm.cons a ih)

theorem mem_sortByLe (le : α → α → Bool) (l : List α) (x : α) :
    x ∈ sortByLe le l ↔ x ∈ l :=
  (perm_sortByLe le l).mem_iff

theorem length_sortByLe (le : α → α → Bool) (l : List α) :
    (sortByLe le l).length = l.length :=
  (perm_sortByLe le l).length_eq

theorem sorted_insertLe (le : α → α → Bool)
    (htot : ∀ a b, le a b = true ∨ le b a = true)
    (htrans : ∀ a b c, le a b = true → le b c = true → le a c = true)
    (a : α) (l : List α) (hl : l.Pairwise (fun x y => le x y = true)) :
    (insertLe le a l).Pairwise (fun x y => le x y = true) := by
  induction l with
  | nil => simp [insertLe]
  | cons b bs ih =>
    rcases List.pairwise_cons.1 hl with ⟨hb, hbs⟩
    by_cases hab : le a b
    · simp only [insertLe, hab, if_true]
      refine List.pairwise_cons.2 ⟨?_, hl⟩
      intro y hy
      rcases List.mem_cons.1 hy with rfl | hy
      · exact hab
      · exact htrans a b y hab (hb y hy)
    · simp only [insertLe, hab, if_false]
      refine List.pairwise_cons.2 ⟨?_, ih hbs⟩
      intro y hy
      rcases (mem_insertLe le a y bs).1 hy with rfl | hy
      · rcases htot y b with h | h
        · exact absurd h hab
        · exact h
      · exact hb y hy

theorem sorted_sortByLe (le : α → α → Bool)
    (htot : ∀ a b, le a b = true ∨ le b a = true)
    (htrans : ∀ a b c, le a b = true → le b c = true → le a c = true)
    (l : List α) : (sortByLe le l).Pairwise (fun x y => le x y = true) := by
  induction l with
  | nil => simp [sortByLe]
  | cons a as ih => exact sorted_insertLe le htot htrans a _ ih

theorem insertLe_map (le : β → β → Bool) (f : α → β) (a : α) (l : List α) :
    insertLe le (f a) (l.map f) = (insertLe (fun x y => le (f x) (f y)) a l).map f := by
  induction l with
  | nil => rfl
  | cons b bs ih =>
    by_cases h : le (f a) (f b)
    · simp [insertLe, h]
    · simp [insertLe, h, ih]

theorem sortByLe_map (le : β → β → Bool) (f : α → β) (l : List α) :
    sortByLe le (l.map f) = (sortByLe (fun x y => le (f x) (f y)) l).map f := by
  induction l with
  | nil => rfl
  | cons a as ih => simp [sortByLe, ih, insertLe_map]

theorem pairwise_take_drop {R : α → α → Prop} {l : List α} (h : l.Pairwise R) (n : ℕ)
    (a b : α) (ha : a ∈ l.take n) (hb : b ∈ l.drop n) : R a b := by
  have hsplit : l = l.take n ++ l.drop n := (List.take_append_drop n l).symm
  rw [hsplit] at h
  exact (List.pairwise_append.1 h).2.2 a ha b hb

theorem filterMap_guard (P : α → Bool) (g : α → β) (l : List α) :
    (l.filterMap (fun x => if P x then none else some (g x))) =
      (l.filter (fun x => !P x)).map g := by
  induction l with
  | nil => rfl
  | cons a as ih =>
    by_cases h : P a
    · simp [List.filterMap_cons, List.filter_cons, h, ih]
    · simp [List.filterMap_cons, List.filter_cons, h, ih]

theorem sum_map_ite_mem (a : α) [DecidableEq α] (l : List α) (hl : l.Nodup) (ha : a ∈ l) :
    (l.map (fun k => if a = k then (1 : ℕ) else 0)).sum = 1 := by
  induction l with
  | nil => cases ha
  | cons b bs ih =>
    rcases List.mem_cons.1 ha with rfl | ha
    · have hb : a ∉ bs := (List.nodup_cons.1 hl).1
      have hz : (bs.map (fun k => if a = k then (1 : ℕ) else 0)).sum = 0 := by
        rw [List.sum_eq_zero_iff]
        intro x hx
        rcases List.mem_map.1 hx with ⟨k, hk, rfl⟩
        simp only [ite_eq_right_iff]
        intro h
        exact absurd (h ▸ hk) hb
      rw [List.map_cons, List.sum_cons, if_pos rfl, hz]
    · have hb : b ≠ a := by
        rintro rfl
        exact (List.nodup_cons.1 hl).1 ha
      have : (if a = b then (1:ℕ) else 0) = 0 := by simp [Ne.symm hb]
      simp [this, ih (List.nodup_cons.1 hl).2 ha]

theorem sum_map_add_nat (f g : α → ℕ) (l : List α) :
    (l.map (fun x => f x + g x)).sum = (l.map f).sum + (l.map g).sum := by
  induction l with
  | nil => rfl
  | cons a as ih => simp [ih]; omega

theorem sum_dedup_count [DecidableEq α] (l : List α) :
    (l.dedup.map (fun k => l.count k)).sum = l.length := by
  induction l with
  | nil => rfl
  | cons a t ih =>
    by_cases ha : a ∈ t
    · rw [List.dedup_cons_of_mem ha]
      have hcount : ∀ k, (a :: t).count k = t.count k + (if a = k then 1 else 0) := by
        intro k
        rw [List.count_cons]
        by_cases h : a = k
        · simp [h]
        · have h2 : ¬ k = a := fun hh => h hh.symm
          simp [h, h2]
      calc (t.dedup.map (fun k => (a :: t).count k)).sum
          = (t.dedup.map (fun k => t.count k + (if a = k then 1 else 0))).sum := by
            congr 1
            exact List.map_congr_left (fun k _ => hcount k)
        _ = (t.dedup.map (fun k => t.count k)).sum
              + (t.dedup.map (fun k => if a = k then (1:ℕ) else 0)).sum :=
            sum_map_add_nat _ _ _
        _ = t.length + 1 := by
            rw [ih, sum_map_ite_mem a t.dedup (List.nodup_dedup t) (List.mem_dedup.2 ha)]
        _ = (a :: t).length := by simp
    · rw [List.dedup_cons_of_not_mem ha]
      have hrest : (t.dedup.map (fun k => (a :: t).count k)).sum
          = (t.dedup.map (fun k => t.count k)).sum := by
        congr 1
        refine List.map_congr_left (fun k hk => ?_)
        have hka : ¬ a = k := by
          rintro rfl
          exact ha (List.mem_dedup.1 hk)
        rw [List.count_cons]
        simp [hka]
      simp only [List.map_cons, List.sum_cons, hrest]
      rw [List.count_cons_self, List.count_eq_zero_of_not_mem ha, ih]
      simp [Nat.add_comm]

theorem sum_dedup_filter_length [DecidableEq β] (l : List α) (key : α → β) :
    (((l.map key).dedup).map (fun k => (l.filter (fun x => key x = k)).length)).sum
      = l.length := by
  have h1 : ∀ k, (l.filter (fun x => key x = k)).length = (l.map key).count k := by
    intro k
    rw [List.count_eq_countP, List.countP_map, ← List.countP_eq_length_filter]
    congr 1
  calc (((l.map key).dedup).map (fun k => (l.filter (fun x => key x = k)).length)).sum
      = (((l.map key).dedup).map (fun k => (l.map key).count k)).sum := by
        congr 1
        exact List.map_congr_left (fun k _ => h1 k)
    _ = (l.map key).length := sum_dedup_count _
    _ = l.length := List.length_map l key

theorem find_map_nodup [DecidableEq α] (ks : List α) (f : α → β) (g : α)
    (hnd : ks.Nodup) (hg : g ∈ ks) :
    ((ks.map (fun k => (k, f k))).find? (fun p => p.1 = g)) = some (g, f g) := by
  induction ks with
  | nil => cases hg
  | cons a as ih =>
    rcases List.mem_cons.1 hg with rfl | hg
    · simp [List.find?]
    · have hne : a ≠ g := by
        rintro rfl
        exact (List.nodup_cons.1 hnd).1 hg
      simp only [List.map_cons, List.find?]
      simp only [decide_eq_true_eq, hne, decide_False]
      exact ih (List.nodup_cons.1 hnd).2 hg

/-- Value of one numeric CSV cell as pandas sees it: a parsed number, a
missing value (NaN), or a non-numeric text entry in an object-typed column. -/
inductive CellVal where
  | num (q : ℚ)
  | na
  | txt (s : String)
deriving DecidableEq, Repr

/-- Coercion by `pd.to_numeric` with `errors` set to coerce: numbers pass
through, missing and non-numeric text both become NaN. -/
def toNumericCell : CellVal → CellVal
  | .num q => .num q
  | _ => .na

/-- The pandas `notna` test on one cell. -/
def cellNotNA : CellVal → Bool
  | .na => false
  | _ => true

/-- Strict greater-than comparison of a cell against a constant; NaN compares
false, as in pandas. -/
def cellGT (c : CellVal) (x : ℚ) : Bool :=
  match c with
  | .num q => decide (x < q)
  | _ => false

/-- The pandas `between` test (inclusive on both ends); NaN compares false. -/
def cellBetween (c : CellVal) (lo hi : ℚ) : Bool :=
  match c with
  | .num q => decide (lo ≤ q) && decide (q ≤ hi)
  | _ => false

/-- Is the cell a non-numeric text entry?  Comparing such a cell against a
float raises a TypeError in pandas. -/
def cellIsText : CellVal → Bool
  | .txt _ => true
  | _ => false

/-- One cleaned record of the song dataset, with the genre field already
split into a list of labels. -/
structure SongRecord where
  artist : String
  song : String
  duration : ℤ
  explicit : Bool
  year : ℤ
  popularity : CellVal
  danceability : CellVal
  speechiness : CellVal
  genres : List String
deriving DecidableEq, Repr

/-- The three filter predicates of `filter_data`, with null handling:
popularity strictly above 50, danceability strictly above 0.20, and
speechiness in the inclusive band 0.33 to 0.66; popularity and
danceability are coerced to numeric first. -/
def keepSong (r : SongRecord) : Bool :=
  cellNotNA (toNumericCell r.popularity) && cellGT (toNumericCell r.popularity) 50 &&
  cellNotNA (toNumericCell r.danceability) && cellGT (toNumericCell r.danceability) (20/100) &&
  cellNotNA r.speechiness && cellBetween r.speechiness (33/100) (66/100)

/-- The filter stage `filter_data`: evaluating the vectorised `between` mask
on the speechiness column raises if any cell of the column is non-numeric
text (speechiness, unlike popularity and danceability, is never coerced);
otherwise the rows satisfying all predicates are kept. -/
def filter_data (recs : List SongRecord) : Except String (List SongRecord) :=
  if recs.any (fun r => cellIsText r.speechiness) then
    .error "TypeError: comparison not supported between str and float instances"
  else
    .ok (recs.filter keepSong)

/-- All genre labels occurring across a record set, in order. -/
def allGenreLabels (recs : List SongRecord) : List String :=
  (recs.map SongRecord.genres).flatten

/-- Surrogate id a genre label receives from the genre lookup built during
the load (ids are positive and unique per distinct label). -/
def genreIdOf (gs : List String) (g : String) : ℕ := gs.indexOf g + 1

/-- Insert SongGenre join rows for one song: each insertion fails if the
(SongID, GenreID) pair is already present, modelling the composite
primary key of the SongGenre table. -/
def insertSongGenres (sid : ℕ) : List ℕ → List (ℕ × ℕ) → Except String (List (ℕ × ℕ))
  | [], tbl => .ok tbl
  | gid :: rest, tbl =>
    if (sid, gid) ∈ tbl then .error "UNIQUE constraint failed: SongGenre.SongID, SongGenre.GenreID"
    else insertSongGenres sid rest (tbl ++ [(sid, gid)])

/-- Insert the Song and SongGenre rows for each record in turn, assigning
consecutive song ids starting from the given one. -/
def loadSongsAux (gs : List String) :
    List SongRecord → ℕ → List (ℕ × SongRecord) → List (ℕ × ℕ) →
      Except String (List (ℕ × SongRecord) × List (ℕ × ℕ))
  | [], _, songs, links => .ok (songs, links)
  | r :: rest, nextId, songs, links =>
    match insertSongGenres nextId (r.genres.map (genreIdOf gs)) links with
    | .error e => .error e
    | .ok links2 => loadSongsAux gs rest (nextId + 1) (songs ++ [(nextId, r)]) links2

/-- The four tables produced by a load run. -/
structure LoadedDb where
  artistRows : List String
  genreRows : List String
  songRows : List (ℕ × SongRecord)
  songGenreRows : List (ℕ × ℕ)
deriving DecidableEq, Repr

/-- The loader `create_and_populate_database`: insert one Artist row per
distinct artist name and one Genre row per distinct genre label, then one
Song row per record and one SongGenre row per genre of the record; any
insertion failure aborts the whole load. -/
def create_and_populate_database (recs : List SongRecord) : Except String LoadedDb :=
  let artists := (recs.map SongRecord.artist).dedup
  let gs := (allGenreLabels recs).dedup
  match loadSongsAux gs recs 1 [] [] with
  | .error e => .error e
  | .ok (songs, links) => .ok ⟨artists, gs, songs, links⟩

/-- Ranking weights for the top-artist query, as held by the
`RankingWeights` class. -/
structure RankingWeights where
  song_weight : ℚ
  popularity_weight : ℚ
deriving DecidableEq, Repr

/-- The numpy `isclose` test with its default tolerances: absolute 1e-8
and relative 1e-5 of the second argument. -/
def np_isclose (a b : ℚ) : Bool :=
  decide (|a - b| ≤ 1/100000000 + (1/100000) * |b|)

/-- Validating constructor of `RankingWeights`: reject weight pairs whose
sum is not `np.isclose` to 1.0. -/
def mkRankingWeights (song_weight popularity_weight : ℚ) : Except String RankingWeights :=
  if np_isclose (song_weight + popularity_weight) 1 then
    .ok ⟨song_weight, popularity_weight⟩
  else
    .error "Weights must sum to 1.0"

/-- The ranking formula of `calculate_ranking_value`: the song count is
normalised to a 0 to 100 scale, clamped at 100, and blended with the
average popularity by the two weights. -/
def calculate_ranking_value (num_songs : ℕ) (avg_popularity : ℚ) (weights : RankingWeights) : ℚ :=
  weights.song_weight * min (((num_songs : ℚ) / 100) * 100) 100 +
    weights.popularity_weight * avg_popularity

/-- One row of the Song table. -/
structure DbSong where
  id : ℕ
  title : String
  year : ℤ
  popularity : ℚ
  danceability : ℚ
  speechiness : ℚ
  artistId : ℕ
deriving DecidableEq, Repr

/-- The relational store the query layer reads: Artist and Genre rows are
(id, name) pairs, SongGenre rows are (song id, genre id) pairs. -/
structure Database where
  artists : List (ℕ × String)
  genres : List (ℕ × String)
  songs : List DbSong
  songGenres : List (ℕ × ℕ)
deriving DecidableEq, Repr

/-- The relational join Song x SongGenre x Genre: one row per SongGenre link,
carrying the song and the genre label. -/
def genreLinkRows (db : Database) : List (DbSong × String) :=
  db.songGenres.flatMap (fun sg =>
    (db.songs.filter (fun s => s.id = sg.1)).flatMap (fun s =>
      (db.genres.filter (fun g => g.1 = sg.2)).map (fun g => (s, g.2))))

/-- Number of Song rows of a given year. -/
def yearSongCount (db : Database) (y : ℤ) : ℕ :=
  (db.songs.filter (fun s => s.year = y)).length

/-- The genre-link rows restricted to songs of one year, the `GenreSongs`
common table expression of the genre-statistics query. -/
def yearGenreLinkRows (db : Database) (y : ℤ) : List (DbSong × String) :=
  (genreLinkRows db).filter (fun p => p.1.year = y)

/-- The distinct genre labels appearing in a year, the GROUP BY keys. -/
def genreStatKeys (db : Database) (y : ℤ) : List String :=
  ((yearGenreLinkRows db y).map Prod.snd).dedup

/-- The window total `SUM(COUNT(*)) OVER ()`: the sum of the per-genre row
counts over all groups of the year. -/
def genreStatTotal (db : Database) (y : ℤ) : ℕ :=
  ((genreStatKeys db y).map
    (fun g => ((yearGenreLinkRows db y).filter (fun p => p.2 = g)).length)).sum

/-- One output row of the genre-statistics query. -/
structure GenreStatRow where
  genre : String
  avgDanceability : ℚ
  avgPopularity : ℚ
  avgSpeechiness : ℚ
  songCount : ℕ
  percentage : ℚ
deriving DecidableEq, Repr

/-- The aggregates of one genre group of the year: rounded averages, the
row count, and the rounded percentage of the window total. -/
def genreStatRowOf (db : Database) (y : ℤ) (g : String) : GenreStatRow :=
  let grp := (yearGenreLinkRows db y).filter (fun p => p.2 = g)
  ⟨g, roundTo 3 (listAvg (grp.map (fun p => p.1.danceability))),
    roundTo 1 (listAvg (grp.map (fun p => p.1.popularity))),
    roundTo 3 (listAvg (grp.map (fun p => p.1.speechiness))),
    grp.length,
    roundTo 1 ((grp.length : ℚ) * 100 / (genreStatTotal db y : ℚ))⟩

/-- The result rows of the genre-statistics query, sorted by song count
descending. -/
def genre_stat_rows (db : Database) (y : ℤ) : List GenreStatRow :=
  sortByLe (fun r1 r2 => decide (r2.songCount ≤ r1.songCount))
    ((genreStatKeys db y).map (genreStatRowOf db y))

/-- Qualifying alternative years: every year having strictly more songs than
the minimum threshold, with its song count. -/
def qualifyingYears (db : Database) (min_songs : ℕ) : List (ℤ × ℕ) :=
  (((db.songs.map DbSong.year).dedup).map (fun y => (y, yearSongCount db y))).filter
    (fun p => decide (min_songs < p.2))

/-- Up to two qualifying years nearest to the requested year by absolute
distance, as the alternative-year query computes them. -/
def alternativeYears (db : Database) (year : ℤ) (min_songs : ℕ) : List (ℤ × ℕ) :=
  (sortByLe (fun p q => decide (|p.1 - year| ≤ |q.1 - year|)) (qualifyingYears db min_songs)).take 2

/-- Possible outcomes of the genre-statistics query. -/
inductive GenreStatsOutcome where
  | invalidYear
  | noData (alternatives : List (ℤ × ℕ))
  | emptyResult
  | ok (lowDataAlternatives : Option (List (ℤ × ℕ))) (rows : List GenreStatRow)
deriving DecidableEq, Repr

/-- The query `get_genre_statistics`: reject invalid years; with zero songs
in the year report alternatives and no result; otherwise return the genre
rows (None when even the join is empty), flagged with alternatives when the
year has fewer songs than the minimum threshold. -/
def get_genre_statistics (db : Database) (year : ℤ) (min_songs : ℕ) : GenreStatsOutcome :=
  if ¬ (1998 ≤ year ∧ year ≤ 2020) then .invalidYear
  else if yearSongCount db year = 0 then .noData (alternativeYears db year min_songs)
  else if genre_stat_rows db year = [] then .emptyResult
  else if yearSongCount db year < min_songs then
    .ok (some (alternativeYears db year min_songs)) (genre_stat_rows db year)
  else .ok none (genre_stat_rows db year)

/-- Does a stored name contain the token as a case-insensitive substring?
This is the SQLite `Name LIKE ?` test with wildcards around a lowercased
token. -/
def nameLikeToken (stored tok : String) : Bool := strContains (lowerStr stored) tok

/-- Does a stored name match any token of the tokenised input? -/
def nameMatchesAnyToken (parts : List String) (stored : String) : Bool :=
  parts.any (fun p => nameLikeToken stored p)

/-- Comparator of the suggestion query `ORDER BY matches DESC, length(Name)`:
higher per-name row count first, shorter name first on ties. -/
def suggestionLe (x y : String × ℕ) : Bool :=
  if x.2 = y.2 then decide (x.1.length ≤ y.1.length) else decide (y.2 < x.2)

/-- The suggestion resolver `get_similar_artists`: return exact matches when
some row equals the input; otherwise tokenise the lowercased input on
whitespace (an input with no token produces a malformed SQL query, which
raises), group the rows matching any token by name with their row counts,
order by count descending then name length ascending, and return at most
`limit` names. -/
def get_similar_artists (name : String) (stored : List String) (limit : ℕ) :
    Except String (List String) :=
  let exact := stored.filter (fun s => s = name)
  if exact.isEmpty then
    let parts := splitWs (lowerStr name)
    if parts.isEmpty then .error "OperationalError: incomplete input"
    else
      let matched := stored.filter (nameMatchesAnyToken parts)
      .ok (((sortByLe suggestionLe
        ((matched.dedup).map (fun s => (s, matched.count s)))).take limit).map Prod.fst)
  else .ok exact

/-- The number of input tokens a stored name contains, the ranking key the
specification describes for suggestions. -/
def tokenMatchCount (parts : List String) (stored : String) : ℕ :=
  (parts.filter (fun p => nameLikeToken stored p)).length

/-- The relational join Song x SongGenre x Genre restricted through
Artist to one artist name: the per-artist genre/popularity rows. -/
def artistGenreLinkRows (db : Database) (name : String) : List (DbSong × String) :=
  (genreLinkRows db).flatMap (fun p =>
    ((db.artists.filter (fun a => a.1 = p.1.artistId && a.2 = name)).map (fun _ => p)))

/-- Group genre/popularity link rows by genre label: one row per distinct
label with the rounded average popularity and the row count. -/
def groupPopByGenre (rows : List (DbSong × String)) : List (String × ℚ × ℕ) :=
  ((rows.map Prod.snd).dedup).map (fun g =>
    (g, roundTo 2 (listAvg ((rows.filter (fun p => p.2 = g)).map (fun p => p.1.popularity))),
      (rows.filter (fun p => p.2 = g)).length))

/-- One output row of the artist-popularity query. -/
structure ArtistPopRow where
  genre : String
  artistPopularity : ℚ
  songCount : ℕ
  overallPopularity : Option ℚ
  totalSongs : Option ℕ
  difference : Option ℚ
  aboveMean : Bool
deriving DecidableEq, Repr

/-- The left merge of the artist's per-genre rows onto the overall per-genre
rows, with the derived Difference and AboveMean columns; a genre missing on
the right yields nulls and a false flag, as NaN comparisons do in pandas. -/
def mergePopRows (ar ov : List (String × ℚ × ℕ)) : List ArtistPopRow :=
  ar.map (fun t =>
    match ov.find? (fun o => o.1 = t.1) with
    | some o =>
      ⟨t.1, t.2.1, t.2.2, some o.2.1, some o.2.2, some (t.2.1 - o.2.1),
        decide (0 < t.2.1 - o.2.1)⟩
    | none => ⟨t.1, t.2.1, t.2.2, none, none, none, false⟩)

/-- The query `get_artist_popularity`: fail validation when no Artist row
bears the name; otherwise merge the artist's per-genre averages with the
overall per-genre averages and sort by artist popularity descending. -/
def get_artist_popularity (db : Database) (name : String) : Option (List ArtistPopRow) :=
  if (db.artists.filter (fun a => a.2 = name)).isEmpty then none
  else some (sortByLe (fun r1 r2 => decide (r2.artistPopularity ≤ r1.artistPopularity))
    (mergePopRows (groupPopByGenre (artistGenreLinkRows db name))
      (groupPopByGenre (genreLinkRows db))))

/-- The join Song x Artist restricted to a year range: one (artist name,
song) row per matching pair. -/
def songArtistRows (db : Database) (s e : ℤ) : List (String × DbSong) :=
  (db.songs.filter (fun x => decide (s ≤ x.year) && decide (x.year ≤ e))).flatMap (fun x =>
    (db.artists.filter (fun a => a.1 = x.artistId)).map (fun a => (a.2, x)))

/-- The distinct artist names appearing in the year range. -/
def rankArtists (db : Database) (s e : ℤ) : List String :=
  ((songArtistRows db s e).map Prod.fst).dedup

/-- The years of the closed range from `s` to `e`. -/
def yearsBetween (s e : ℤ) : List ℤ :=
  (List.range (e + 1 - s).toNat).map (fun (i : ℕ) => s + (i : ℤ))

/-- The joined rows of one artist and one year. -/
def songsOfAY (db : Database) (s e : ℤ) (a : String) (y : ℤ) : List (String × DbSong) :=
  (songArtistRows db s e).filter (fun p => p.1 = a && p.2.year = y)

/-- One row of the per-artist-per-year GROUP BY: the song count, the rounded
average popularity, and the derived rank value. -/
structure YearRankRow where
  artist : String
  year : ℤ
  numSongs : ℕ
  avgPopularity : ℚ
  rankValue : ℚ
deriving DecidableEq, Repr

/-- The rank value of one artist in one year, computed directly from the
store: the ranking formula applied to the song count and the rounded
average popularity. -/
def rankAt (db : Database) (s e : ℤ) (a : String) (y : ℤ) (w : RankingWeights) : ℚ :=
  calculate_ranking_value (songsOfAY db s e a y).length
    (roundTo 2 (listAvg ((songsOfAY db s e a y).map (fun p => p.2.popularity)))) w

/-- The GROUP BY row of one artist and one year, when the group is
non-empty. -/
def rankRowOf (db : Database) (s e : ℤ) (w : RankingWeights) (a : String) (y : ℤ) :
    Option YearRankRow :=
  if (songsOfAY db s e a y).length = 0 then none
  else some ⟨a, y, (songsOfAY db s e a y).length,
    roundTo 2 (listAvg ((songsOfAY db s e a y).map (fun p => p.2.popularity))),
    rankAt db s e a y w⟩

/-- All per-artist-per-year GROUP BY rows of the ranking query, with their
rank values. -/
def rankRows (db : Database) (s e : ℤ) (w : RankingWeights) : List YearRankRow :=
  (rankArtists db s e).flatMap (fun a => (yearsBetween s e).filterMap (rankRowOf db s e w a))

/-- Summary statistics of one artist over the range: summed rank value,
summed song count, and mean of the yearly average popularities. -/
structure ArtistTotal where
  artist : String
  totalRank : ℚ
  totalSongs : ℕ
  meanAvgPopularity : ℚ
deriving DecidableEq, Repr

/-- The per-artist aggregation over the GROUP BY rows. -/
def artistTotals (rows : List YearRankRow) : List ArtistTotal :=
  ((rows.map YearRankRow.artist).dedup).map (fun a =>
    ⟨a, ((rows.filter (fun r => r.artist = a)).map YearRankRow.rankValue).sum,
      ((rows.filter (fun r => r.artist = a)).map YearRankRow.numSongs).sum,
      listAvg ((rows.filter (fun r => r.artist = a)).map YearRankRow.avgPopularity)⟩)

/-- The five artists with the highest summed rank value, in descending
order of that sum. -/
def top_artists (db : Database) (s e : ℤ) (w : RankingWeights) : List ArtistTotal :=
  (sortByLe (fun t u => decide (u.totalRank ≤ t.totalRank))
    (artistTotals (rankRows db s e w))).take 5

/-- The GROUP BY rows restricted to the top artists, the input of the
pivot table. -/
def pivotRows (db : Database) (s e : ℤ) (w : RankingWeights) : List YearRankRow :=
  (rankRows db s e w).filter (fun r => (top_artists db s e w).any (fun t => t.artist = r.artist))

/-- The year columns of the pivot: the distinct years among the top
artists' rows. -/
def pivotCols (db : Database) (s e : ℤ) (w : RankingWeights) : List ℤ :=
  ((pivotRows db s e w).map YearRankRow.year).dedup

/-- One cell of the year-by-artist pivot of rank values: null when the
artist has no row in the year, otherwise the mean of the matching rank
values (a single row in practice). -/
def pivotCell (db : Database) (s e : ℤ) (w : RankingWeights) (a : String) (y : ℤ) : Option ℚ :=
  let m := (pivotRows db s e w).filter (fun r => r.artist = a && r.year = y)
  if m.length = 0 then none else some (listAvg (m.map YearRankRow.rankValue))

/-- One cell of the appended synthetic Average row: the mean of the
non-null cells of the year column, null when every cell is null. -/
def averageRow (db : Database) (s e : ℤ) (w : RankingWeights) (y : ℤ) : Option ℚ :=
  let vs := (top_artists db s e w).filterMap (fun t => pivotCell db s e w t.artist y)
  if vs.length = 0 then none else some (listAvg vs)

/-- C6: for every song count n, average popularity p, and weights, the
ranking calculator returns song_weight * min((n / 100) * 100, 100) +
popularity_weight * p, the normalised count equals min(n, 100), and for
n = 150 the normalised song count used is 100, not 150. -/
theorem c6_ranking_value_formula :
    (∀ (n : ℕ) (p : ℚ) (w : RankingWeights),
      calculate_ranking_value n p w =
        w.song_weight * min (((n : ℚ) / 100) * 100) 100 + w.popularity_weight * p) ∧
    (∀ (n : ℕ) (p : ℚ) (w : RankingWeights),
      calculate_ranking_value n p w =
        w.song_weight * min ((n : ℚ)) 100 + w.popularity_weight * p) ∧
    (∀ (p : ℚ) (w : RankingWeights),
      calculate_ranking_value 150 p w = w.song_weight * 100 + w.popularity_weight * p) := by
  have hsimp : ∀ n : ℕ, ((n : ℚ) / 100) * 100 = (n : ℚ) := by
    intro n
    field_simp
  refine ⟨fun n p w => rfl, fun n p w => ?_, fun p w => ?_⟩
  · unfold calculate_ranking_value
    rw [hsimp]
  · unfold calculate_ranking_value
    rw [hsimp]
    norm_num

/-- C10: ranking-weights construction imposes no range constraint on the
individual weights: the pair (-1.0, 2.0) is accepted because its sum is 1.0,
and those out-of-range weights are used unchanged by the ranking formula. -/
theorem c10_no_range_constraint :
    mkRankingWeights (-1) 2 = .ok ⟨-1, 2⟩ ∧
    (∀ (n : ℕ) (p : ℚ),
      calculate_ranking_value n p ⟨-1, 2⟩ = (-1) * min ((n : ℚ)) 100 + 2 * p) ∧
    calculate_ranking_value 50 60 ⟨-1, 2⟩ = 70 := by
  refine ⟨?_, fun n p => ?_, ?_⟩
  · unfold mkRankingWeights np_isclose
    norm_num
  · unfold calculate_ranking_value
    rw [show ((n : ℚ) / 100) * 100 = (n : ℚ) by field_simp]
  · unfold calculate_ranking_value
    norm_num

/-- C3 (amended): ranking-weights construction succeeds exactly when the
weight sum is within the default numpy tolerance 1e-8 + 1e-5 (that is,
1001/100000000) of 1.0, and fails exactly outside that tolerance; every
pair within 1e-9 therefore succeeds, but so do pairs outside 1e-9 that are
still within the numpy tolerance. -/
theorem c3_weight_tolerance (sw pw : ℚ) :
    (|sw + pw - 1| ≤ 1/1000000000 → mkRankingWeights sw pw = .ok ⟨sw, pw⟩) ∧
    (mkRankingWeights sw pw = .ok ⟨sw, pw⟩ ↔ |sw + pw - 1| ≤ 1001/100000000) ∧
    (mkRankingWeights sw pw = .error "Weights must sum to 1.0" ↔
      1001/100000000 < |sw + pw - 1|) := by
  have hcond : np_isclose (sw + pw) 1 = true ↔ |sw + pw - 1| ≤ 1001/100000000 := by
    unfold np_isclose
    rw [decide_eq_true_eq]
    norm_num
  constructor
  · intro h9
    unfold mkRankingWeights
    rw [if_pos (hcond.2 (le_trans h9 (by norm_num)))]
  constructor
  · constructor
    · intro hok
      by_contra hgt
      unfold mkRankingWeights at hok
      rw [if_neg (fun hc => hgt (hcond.1 hc))] at hok
      cases hok
    · intro hle
      unfold mkRankingWeights
      rw [if_pos (hcond.2 hle)]
  · constructor
    · intro herr
      by_contra hgt
      push_neg at hgt
      unfold mkRankingWeights at herr
      rw [if_pos (hcond.2 hgt)] at herr
      cases herr
    · intro hgt
      unfold mkRankingWeights
      rw [if_neg (fun hc => absurd (hcond.1 hc) (not_le.2 hgt))]

/-- C3 (witness): at the concrete pair (0.4, 0.6) the tolerance hypothesis
holds and construction succeeds. -/
theorem c3_weight_tolerance_witness :
    mkRankingWeights (2/5) (3/5) = .ok ⟨2/5, 3/5⟩ :=
  (c3_weight_tolerance (2/5) (3/5)).1 (by norm_num)

/-- C3 (counterexample): the pair (0.4, 0.600001) sums to 1.000001, which is
outside the 1e-9 tolerance the claim states, yet construction succeeds,
because the numpy default tolerance is about 1e-5. -/
theorem c3_weight_tolerance_counterexample :
    mkRankingWeights (2/5) (600001/1000000) = .ok ⟨2/5, 600001/1000000⟩ ∧
    ¬ (|(2/5 : ℚ) + 600001/1000000 - 1| ≤ 1/1000000000) := by
  have habs : |(2/5 : ℚ) + 600001/1000000 - 1| = 1/1000000 := by
    rw [show ((2/5 : ℚ) + 600001/1000000 - 1) = 1/1000000 by norm_num]
    rw [abs_of_nonneg (by norm_num)]
  constructor
  · have hcl : np_isclose ((2/5 : ℚ) + 600001/1000000) 1 = true := by
      unfold np_isclose
      rw [decide_eq_true_eq, habs]
      norm_num
    unfold mkRankingWeights
    rw [if_pos hcl]
  · rw [habs]
    norm_num

/-- C5 (amended): when no speechiness cell is non-numeric text, the filter
stage succeeds and retains a record exactly when its popularity is a
number strictly above 50, its danceability a number strictly above 0.20,
and its speechiness a number in the inclusive band [0.33, 0.66]; records
with a missing or non-numeric (coerced) popularity or danceability, or a
missing speechiness, are excluded, not defaulted.  A non-numeric text
speechiness cell, however, aborts the whole filter stage with a type
error instead of excluding the record. -/
theorem c5_filter_characterisation (recs : List SongRecord)
    (h : ∀ r ∈ recs, cellIsText r.speechiness = false) :
    filter_data recs = .ok (recs.filter keepSong) ∧
    ∀ r : SongRecord, r ∈ recs.filter keepSong ↔ r ∈ recs ∧
      ((∃ p, r.popularity = .num p ∧ 50 < p) ∧
       (∃ d, r.danceability = .num d ∧ 20/100 < d) ∧
       (∃ s, r.speechiness = .num s ∧ 33/100 ≤ s ∧ s ≤ 66/100)) := by
  constructor
  · unfold filter_data
    rw [if_neg]
    rw [List.any_eq_true]
    push_neg
    intro r hr
    simp [h r hr]
  · intro r
    rw [List.mem_filter]
    constructor
    · rintro ⟨hr, hk⟩
      refine ⟨hr, ?_⟩
      unfold keepSong at hk
      simp only [Bool.and_eq_true] at hk
      obtain ⟨⟨⟨⟨⟨h1, h2⟩, h3⟩, h4⟩, h5⟩, h6⟩ := hk
      refine ⟨?_, ?_, ?_⟩
      · cases hp : r.popularity with
        | num p =>
          refine ⟨p, rfl, ?_⟩
          rw [hp] at h2
          unfold toNumericCell cellGT at h2
          exact of_decide_eq_true h2
        | na => rw [hp] at h2; cases h2
        | txt s => rw [hp] at h2; cases h2
      · cases hd : r.danceability with
        | num d =>
          refine ⟨d, rfl, ?_⟩
          rw [hd] at h4
          unfold toNumericCell cellGT at h4
          exact of_decide_eq_true h4
        | na => rw [hd] at h4; cases h4
        | txt s => rw [hd] at h4; cases h4
      · cases hs : r.speechiness with
        | num s =>
          refine ⟨s, rfl, ?_⟩
          rw [hs] at h6
          unfold cellBetween at h6
          rw [Bool.and_eq_true] at h6
          exact ⟨of_decide_eq_true h6.1, of_decide_eq_true h6.2⟩
        | na => rw [hs] at h6; cases h6
        | txt t => rw [hs] at h6; cases h6
    · rintro ⟨hr, ⟨p, hp, hp50⟩, ⟨d, hd, hd20⟩, ⟨s, hs, hs33, hs66⟩⟩
      refine ⟨hr, ?_⟩
      unfold keepSong
      rw [hp, hd, hs]
      unfold toNumericCell cellNotNA cellGT cellBetween
      simp [hp50, hd20, hs33, hs66]

/-- Record used by the filter-stage witness: satisfies all three predicates. -/
def recRetained : SongRecord :=
  ⟨"Artist A", "Song 1", 200, false, 2010, .num 51, .num (21/100), .num (50/100), ["Pop"]⟩

/-- Record used by the filter-stage witness: speechiness 0.67 fails the band. -/
def recSpeechHigh : SongRecord :=
  ⟨"Artist B", "Song 2", 210, false, 2011, .num 60, .num (50/100), .num (67/100), ["Rock"]⟩

/-- Record used by the filter-stage witness: danceability exactly 0.20 fails
the strict inequality. -/
def recDanceEdge : SongRecord :=
  ⟨"Artist C", "Song 3", 220, true, 2012, .num 70, .num (20/100), .num (50/100), ["Jazz"]⟩

/-- C5 (witness): the filter characterisation applied to the three
specification examples. -/
theorem c5_filter_characterisation_witness :
    filter_data [recRetained, recSpeechHigh, recDanceEdge] =
      .ok ([recRetained, recSpeechHigh, recDanceEdge].filter keepSong) ∧
    ∀ r : SongRecord, r ∈ [recRetained, recSpeechHigh, recDanceEdge].filter keepSong ↔
      r ∈ [recRetained, recSpeechHigh, recDanceEdge] ∧
      ((∃ p, r.popularity = .num p ∧ 50 < p) ∧
       (∃ d, r.danceability = .num d ∧ 20/100 < d) ∧
       (∃ s, r.speechiness = .num s ∧ 33/100 ≤ s ∧ s ≤ 66/100)) :=
  c5_filter_characterisation [recRetained, recSpeechHigh, recDanceEdge] (by decide)

/-- Record whose speechiness column holds non-numeric text. -/
def recSpeechText : SongRecord :=
  ⟨"Artist D", "Song 4", 230, false, 2013, .num 60, .num (50/100), .txt "n/a", ["Pop"]⟩

/-- C5 (counterexample): a record whose speechiness is non-numeric text is
not excluded; the whole filter stage raises instead, so no record set at
all is produced. -/
theorem c5_filter_counterexample :
    filter_data [recSpeechText] =
      .error "TypeError: comparison not supported between str and float instances" ∧
    ¬ filter_data [recSpeechText] = .ok ([recSpeechText].filter keepSong) := by
  refine ⟨rfl, ?_⟩
  intro hout
  rw [show filter_data [recSpeechText] =
    .error "TypeError: comparison not supported between str and float instances" from rfl] at hout
  cases hout

/-- C4 (amended): for an input name with no exact match among the stored
artist names and at least one whitespace token, the suggestion resolver
returns the stored names containing any lowercased token of the input as a
case-insensitive substring, ordered by name length ascending and capped at
the limit (empty if no stored name matches); the intended ordering by
number of matching tokens has no effect, because the per-name group count
of the unique Artist rows is always 1. -/
theorem c4_suggestion_order (name : String) (stored : List String) (limit : ℕ)
    (hnd : stored.Nodup) (hex : name ∉ stored)
    (hp : ¬ splitWs (lowerStr name) = []) :
    get_similar_artists name stored limit =
      .ok ((sortByLe (fun s t => decide (s.length ≤ t.length))
        (stored.filter (nameMatchesAnyToken (splitWs (lowerStr name))))).take limit) ∧
    ((sortByLe (fun s t => decide (s.length ≤ t.length))
        (stored.filter (nameMatchesAnyToken (splitWs (lowerStr name))))).take limit).Pairwise
      (fun s t => s.length ≤ t.length) := by
  have hmatched : (stored.filter (nameMatchesAnyToken (splitWs (lowerStr name)))).Nodup :=
    hnd.filter _
  constructor
  · unfold get_similar_artists
    rw [if_pos, if_neg]
    · dsimp only
      have hded : (stored.filter (nameMatchesAnyToken (splitWs (lowerStr name)))).dedup
          = stored.filter (nameMatchesAnyToken (splitWs (lowerStr name))) :=
        hmatched.dedup
      rw [hded]
      have hcnt : (stored.filter (nameMatchesAnyToken (splitWs (lowerStr name)))).map
            (fun s => (s, (stored.filter (nameMatchesAnyToken (splitWs (lowerStr name)))).count s))
          = (stored.filter (nameMatchesAnyToken (splitWs (lowerStr name)))).map
            (fun s => (s, 1)) := by
        refine List.map_congr_left (fun s hs => ?_)
        rw [List.count_eq_one_of_mem hmatched hs]
      rw [hcnt, sortByLe_map]
      have hcomp : (fun (s t : String) => suggestionLe (s, 1) (t, 1))
          = fun s t => decide (s.length ≤ t.length) := by
        funext s t
        unfold suggestionLe
        simp
      rw [hcomp, ← List.map_take, List.map_map]
      rw [show (Prod.fst ∘ fun s => ((s, 1) : String × ℕ)) = id from rfl, List.map_id]
    · rw [List.isEmpty_eq_true]
      exact hp
    · rw [List.isEmpty_eq_true, List.filter_eq_nil_iff]
      intro a ha hcontra
      exact hex ((of_decide_eq_true hcontra) ▸ ha)
  · have hs := sorted_sortByLe (fun (s t : String) => decide (s.length ≤ t.length))
      (fun a b => by
        rcases Nat.le_total a.length b.length with h | h
        · exact Or.inl (decide_eq_true h)
        · exact Or.inr (decide_eq_true h))
      (fun a b c hab hbc =>
        decide_eq_true (Nat.le_trans (of_decide_eq_true hab) (of_decide_eq_true hbc)))
      (stored.filter (nameMatchesAnyToken (splitWs (lowerStr name))))
    have htake := hs.sublist (List.take_sublist limit _)
    exact htake.imp (fun h => of_decide_eq_true h)

/-- C4 (witness): the resolver applied to the specification example, input
"jon legend" against the single stored name "John Legend". -/
theorem c4_suggestion_order_witness :
    get_similar_artists "jon legend" ["John Legend"] 3 =
      .ok ((sortByLe (fun s t => decide (s.length ≤ t.length))
        (["John Legend"].filter (nameMatchesAnyToken (splitWs (lowerStr "jon legend"))))).take 3) ∧
    ((sortByLe (fun s t => decide (s.length ≤ t.length))
        (["John Legend"].filter (nameMatchesAnyToken (splitWs (lowerStr "jon legend"))))).take 3).Pairwise
      (fun s t => s.length ≤ t.length) :=
  c4_suggestion_order "jon legend" ["John Legend"] 3 (by decide) (by decide) (by decide)

/-- C4 (counterexample): with stored names "legend jon x" (matching two
tokens of the input "jon legend") and "xlegend" (matching one), the
resolver returns the one-token name first, because the actual order is by
name length, not by number of matching tokens descending. -/
theorem c4_suggestion_order_counterexample :
    get_similar_artists "jon legend" ["legend jon x", "xlegend"] 3 =
      .ok ["xlegend", "legend jon x"] ∧
    tokenMatchCount (splitWs (lowerStr "jon legend")) "xlegend" <
      tokenMatchCount (splitWs (lowerStr "jon legend")) "legend jon x" := by
  constructor
  · rfl
  · decide

/-- C9: for every valid year between 1998 and 2020 with zero matching songs,
the genre-statistics query returns no result together with at most two
alternative years, each being a year of the store with strictly more songs
than the minimum threshold, and no qualifying year left out of the
alternatives is strictly nearer to the requested year than any reported
alternative. -/
theorem c9_zero_song_alternatives (db : Database) (year : ℤ) (min_songs : ℕ)
    (hy : 1998 ≤ year ∧ year ≤ 2020) (hz : yearSongCount db year = 0) :
    get_genre_statistics db year min_songs = .noData (alternativeYears db year min_songs) ∧
    (alternativeYears db year min_songs).length ≤ 2 ∧
    (∀ p ∈ alternativeYears db year min_songs,
      p.2 = yearSongCount db p.1 ∧ min_songs < p.2) ∧
    (∀ y' : ℤ, min_songs < yearSongCount db y' →
      y' ∉ (alternativeYears db year min_songs).map Prod.fst →
      ∀ p ∈ alternativeYears db year min_songs, |p.1 - year| ≤ |y' - year|) := by
  have hqual : ∀ p ∈ qualifyingYears db min_songs,
      p.2 = yearSongCount db p.1 ∧ min_songs < p.2 := by
    intro p hp
    unfold qualifyingYears at hp
    rw [List.mem_filter] at hp
    obtain ⟨hpm, hplt⟩ := hp
    rcases List.mem_map.1 hpm with ⟨y0, _, rfl⟩
    exact ⟨rfl, of_decide_eq_true hplt⟩
  refine ⟨?_, ?_, ?_, ?_⟩
  · unfold get_genre_statistics
    rw [if_neg (not_not_intro hy), if_pos hz]
  · unfold alternativeYears
    exact List.length_take_le 2 _
  · intro p hp
    refine hqual p ?_
    have hp2 := List.take_subset 2 _ hp
    exact (mem_sortByLe _ _ p).1 hp2
  · intro y1 hy1 hnot p hp
    have hcount : (db.songs.filter (fun s => s.year = y1)).length ≠ 0 := by
      intro hO
      rw [yearSongCount, hO] at hy1
      omega
    have hex : ∃ s ∈ db.songs, s.year = y1 := by
      rcases List.exists_mem_of_length_pos (Nat.pos_of_ne_zero hcount) with ⟨s, hs⟩
      rw [List.mem_filter] at hs
      exact ⟨s, hs.1, of_decide_eq_true hs.2⟩
    have hmemq : (y1, yearSongCount db y1) ∈ qualifyingYears db min_songs := by
      unfold qualifyingYears
      rw [List.mem_filter]
      constructor
      · refine List.mem_map.2 ⟨y1, ?_, rfl⟩
        rw [List.mem_dedup]
        rcases hex with ⟨s, hs, hsy⟩
        exact List.mem_map.2 ⟨s, hs, hsy⟩
      · exact decide_eq_true hy1
    have hsortmem : (y1, yearSongCount db y1) ∈
        sortByLe (fun p q => decide (|p.1 - year| ≤ |q.1 - year|)) (qualifyingYears db min_songs) :=
      (mem_sortByLe _ _ _).2 hmemq
    have hnottake : (y1, yearSongCount db y1) ∉ alternativeYears db year min_songs := by
      intro hmem
      exact hnot (List.mem_map.2 ⟨(y1, yearSongCount db y1), hmem, rfl⟩)
    have hdrop : (y1, yearSongCount db y1) ∈
        (sortByLe (fun p q => decide (|p.1 - year| ≤ |q.1 - year|))
          (qualifyingYears db min_songs)).drop 2 := by
      have hsplit := hsortmem
      rw [← List.take_append_drop 2 (sortByLe (fun p q => decide (|p.1 - year| ≤ |q.1 - year|))
        (qualifyingYears db min_songs))] at hsplit
      rcases List.mem_append.1 hsplit with h | h
      · exact absurd h hnottake
      · exact h
    have hsorted := sorted_sortByLe (fun (p q : ℤ × ℕ) => decide (|p.1 - year| ≤ |q.1 - year|))
      (fun a b => by
        rcases le_total |a.1 - year| |b.1 - year| with h | h
        · exact Or.inl (decide_eq_true h)
        · exact Or.inr (decide_eq_true h))
      (fun a b c hab hbc =>
        decide_eq_true (le_trans (of_decide_eq_true hab) (of_decide_eq_true hbc)))
      (qualifyingYears db min_songs)
    exact of_decide_eq_true
      (pairwise_take_drop hsorted 2 p (y1, yearSongCount db y1) hp hdrop)

/-- Database used by the genre-statistics witnesses: two songs in 1999 and
eleven songs in 2003 by one artist, each song tagged with the genre Pop. -/
def dbYears : Database :=
  let songsA := (List.range 11).map (fun i =>
    DbSong.mk (i + 3) "t" 2003 60 (1/2) (1/2) 1)
  ⟨[(1, "A")], [(1, "Pop")],
    ⟨1, "s1", 1999, 55, 1/2, 1/2, 1⟩ :: ⟨2, "s2", 1999, 65, 1/2, 1/2, 1⟩ :: songsA,
    (List.range 13).map (fun i => (i + 1, 1))⟩

/-- C9 (witness): the alternative-year policy applied to the concrete store
`dbYears` at the empty year 2005 with the default threshold of 10. -/
theorem c9_zero_song_alternatives_witness :
    get_genre_statistics dbYears 2005 10 = .noData (alternativeYears dbYears 2005 10) ∧
    (alternativeYears dbYears 2005 10).length ≤ 2 ∧
    (∀ p ∈ alternativeYears dbYears 2005 10,
      p.2 = yearSongCount dbYears p.1 ∧ 10 < p.2) ∧
    (∀ y' : ℤ, 10 < yearSongCount dbYears y' →
      y' ∉ (alternativeYears dbYears 2005 10).map Prod.fst →
      ∀ p ∈ alternativeYears dbYears 2005 10, |p.1 - 2005| ≤ |y' - 2005|) :=
  c9_zero_song_alternatives dbYears 2005 10 (by norm_num) (by decide)

theorem genreStatTotal_eq_length (db : Database) (y : ℤ) :
    genreStatTotal db y = (yearGenreLinkRows db y).length := by
  unfold genreStatTotal genreStatKeys
  exact sum_dedup_filter_length (yearGenreLinkRows db y) Prod.snd

/-- C2 (amended): in the genre-statistics-by-year query, for every genre in
the result, the Percentage column equals that genre's song count times 100
divided by the total number of genre links (song-genre pairs) of that
year, rounded to one decimal place; this denominator counts a song once
per genre, so it coincides with the number of songs of the year only when
every song carries exactly one genre. -/
theorem c2_percentage_denominator (db : Database) (y : ℤ) (min_songs : ℕ)
    (hy : 1998 ≤ y ∧ y ≤ 2020) (hc : yearSongCount db y ≠ 0)
    (hl : ¬ yearGenreLinkRows db y = []) :
    ∃ low rows, get_genre_statistics db y min_songs = .ok low rows ∧
      ∀ row ∈ rows, row.percentage =
        roundTo 1 ((row.songCount : ℚ) * 100 / ((yearGenreLinkRows db y).length : ℚ)) := by
  have hrowsne : ¬ genre_stat_rows db y = [] := by
    intro hnil
    have hlen := length_sortByLe (fun r1 r2 => decide (r2.songCount ≤ r1.songCount))
      ((genreStatKeys db y).map (genreStatRowOf db y))
    rw [show sortByLe (fun r1 r2 => decide (r2.songCount ≤ r1.songCount))
        ((genreStatKeys db y).map (genreStatRowOf db y)) = genre_stat_rows db y from rfl,
      hnil] at hlen
    have hkeysne : ¬ genreStatKeys db y = [] := by
      unfold genreStatKeys
      intro hnil2
      rw [List.dedup_eq_nil, List.map_eq_nil_iff] at hnil2
      exact hl hnil2
    rw [List.length_nil, List.length_map] at hlen
    exact hkeysne (List.length_eq_zero.1 hlen.symm)
  have hrowprop : ∀ row ∈ genre_stat_rows db y, row.percentage =
      roundTo 1 ((row.songCount : ℚ) * 100 / ((yearGenreLinkRows db y).length : ℚ)) := by
    intro row hrow
    rw [genre_stat_rows, mem_sortByLe] at hrow
    rcases List.mem_map.1 hrow with ⟨g, _, rfl⟩
    rw [show (genreStatRowOf db y g).percentage = roundTo 1
      ((((yearGenreLinkRows db y).filter (fun p => p.2 = g)).length : ℚ) * 100 /
        (genreStatTotal db y : ℚ)) from rfl]
    rw [show (genreStatRowOf db y g).songCount =
      ((yearGenreLinkRows db y).filter (fun p => p.2 = g)).length from rfl]
    rw [genreStatTotal_eq_length]
  by_cases hlow : yearSongCount db y < min_songs
  · refine ⟨some (alternativeYears db y min_songs), genre_stat_rows db y, ?_, hrowprop⟩
    unfold get_genre_statistics
    rw [if_neg (not_not_intro hy), if_neg hc, if_neg hrowsne, if_pos hlow]
  · refine ⟨none, genre_stat_rows db y, ?_, hrowprop⟩
    unfold get_genre_statistics
    rw [if_neg (not_not_intro hy), if_neg hc, if_neg hrowsne, if_neg hlow]

/-- C2 (witness): the percentage property applied to the concrete store
`dbYears` at the year 2003, which has eleven single-genre songs. -/
theorem c2_percentage_denominator_witness :
    ∃ low rows, get_genre_statistics dbYears 2003 10 = .ok low rows ∧
      ∀ row ∈ rows, row.percentage =
        roundTo 1 ((row.songCount : ℚ) * 100 / ((yearGenreLinkRows dbYears 2003).length : ℚ)) :=
  c2_percentage_denominator dbYears 2003 10 (by norm_num) (by decide) (by decide)

/-- Database used by the percentage counterexample: a single song of 2010
carrying the two genres Pop and Rock. -/
def dbTwoGenres : Database :=
  ⟨[(1, "A")], [(1, "Pop"), (2, "Rock")],
    [⟨1, "s", 2010, 60, 1/2, 2/5, 1⟩], [(1, 1), (1, 2)]⟩

/-- C2 (counterexample): with one song of the year carrying two genres, the
Pop row reports a percentage of 50.0, although the genre has one song and
the year has one song, so the share of the total number of songs of the
year that the claim states would be 100.0. -/
theorem c2_percentage_counterexample :
    get_genre_statistics dbTwoGenres 2010 10 =
      .ok (some (alternativeYears dbTwoGenres 2010 10)) (genre_stat_rows dbTwoGenres 2010) ∧
    genreStatRowOf dbTwoGenres 2010 "Pop" ∈ genre_stat_rows dbTwoGenres 2010 ∧
    (genreStatRowOf dbTwoGenres 2010 "Pop").genre = "Pop" ∧
    (genreStatRowOf dbTwoGenres 2010 "Pop").songCount = 1 ∧
    (genreStatRowOf dbTwoGenres 2010 "Pop").percentage = 50 ∧
    roundTo 1 (((genreStatRowOf dbTwoGenres 2010 "Pop").songCount : ℚ) * 100 /
      (yearSongCount dbTwoGenres 2010 : ℚ)) = 100 ∧
    ¬ (genreStatRowOf dbTwoGenres 2010 "Pop").percentage =
      roundTo 1 (((genreStatRowOf dbTwoGenres 2010 "Pop").songCount : ℚ) * 100 /
        (yearSongCount dbTwoGenres 2010 : ℚ)) := by
  have h50 : roundTo 1 ((1 : ℚ) * 100 / 2) = 50 := by
    rw [show ((1 : ℚ) * 100 / 2) = ((50 : ℤ) : ℚ) by norm_num, roundTo_intCast]
    norm_num
  have h100 : roundTo 1 ((1 : ℚ) * 100 / 1) = 100 := by
    rw [show ((1 : ℚ) * 100 / 1) = ((100 : ℤ) : ℚ) by norm_num, roundTo_intCast]
    norm_num
  have hperc : (genreStatRowOf dbTwoGenres 2010 "Pop").percentage = 50 := by
    show roundTo 1 ((((yearGenreLinkRows dbTwoGenres 2010).filter
      (fun p => p.2 = "Pop")).length : ℚ) * 100 / (genreStatTotal dbTwoGenres 2010 : ℚ)) = 50
    rw [show ((yearGenreLinkRows dbTwoGenres 2010).filter
      (fun p => p.2 = "Pop")).length = 1 from rfl]
    rw [show genreStatTotal dbTwoGenres 2010 = 2 from rfl]
    rw [show ((1 : ℕ) : ℚ) = 1 from rfl, show ((2 : ℕ) : ℚ) = 2 from rfl]
    exact h50
  refine ⟨?_, ?_, rfl, rfl, hperc, ?_, ?_⟩
  · unfold get_genre_statistics
    rw [if_neg (by norm_num), if_neg (by decide), if_neg (by decide), if_pos (by decide)]
  · rw [genre_stat_rows, mem_sortByLe]
    exact List.mem_map_of_mem _ (by decide)
  · rw [show (genreStatRowOf dbTwoGenres 2010 "Pop").songCount = 1 from rfl]
    rw [show yearSongCount dbTwoGenres 2010 = 1 from rfl]
    rw [show ((1 : ℕ) : ℚ) = 1 from rfl]
    exact h100
  · rw [hperc]
    rw [show (genreStatRowOf dbTwoGenres 2010 "Pop").songCount = 1 from rfl]
    rw [show yearSongCount dbTwoGenres 2010 = 1 from rfl]
    rw [show ((1 : ℕ) : ℚ) = 1 from rfl]
    rw [h100]
    norm_num

theorem mem_artistGenreLinkRows (db : Database) (name : String) (p : DbSong × String)
    (hp : p ∈ artistGenreLinkRows db name) : p ∈ genreLinkRows db := by
  unfold artistGenreLinkRows at hp
  rcases List.mem_flatMap.1 hp with ⟨q, hq, hpq⟩
  rcases List.mem_map.1 hpq with ⟨a, _, rfl⟩
  exact hq

set_option maxHeartbeats 800000 in
/-- C7: for an artist name that validates, the artist-popularity query
returns rows where, for every genre row, the stored artist popularity is
the rounded per-genre average of the artist's song popularities, the
Difference column is exactly that value minus the rounded all-artists
per-genre average, AboveMean holds exactly when the difference is
positive, and the rows are sorted by artist popularity descending. -/
theorem c7_artist_popularity (db : Database) (name : String)
    (hname : ¬ (db.artists.filter (fun a => a.2 = name)).isEmpty = true) :
    ∃ rows, get_artist_popularity db name = some rows ∧
      (∀ row ∈ rows,
        row.artistPopularity = roundTo 2 (listAvg
          (((artistGenreLinkRows db name).filter (fun p => p.2 = row.genre)).map
            (fun p => p.1.popularity))) ∧
        row.difference = some (roundTo 2 (listAvg
            (((artistGenreLinkRows db name).filter (fun p => p.2 = row.genre)).map
              (fun p => p.1.popularity))) -
          roundTo 2 (listAvg
            (((genreLinkRows db).filter (fun p => p.2 = row.genre)).map
              (fun p => p.1.popularity)))) ∧
        (row.aboveMean = true ↔ 0 < roundTo 2 (listAvg
            (((artistGenreLinkRows db name).filter (fun p => p.2 = row.genre)).map
              (fun p => p.1.popularity))) -
          roundTo 2 (listAvg
            (((genreLinkRows db).filter (fun p => p.2 = row.genre)).map
              (fun p => p.1.popularity))))) ∧
      rows.Pairwise (fun r1 r2 => r2.artistPopularity ≤ r1.artistPopularity) := by
  refine ⟨sortByLe (fun r1 r2 => decide (r2.artistPopularity ≤ r1.artistPopularity))
    (mergePopRows (groupPopByGenre (artistGenreLinkRows db name))
      (groupPopByGenre (genreLinkRows db))), ?_, ?_, ?_⟩
  · unfold get_artist_popularity
    rw [if_neg hname]
  · intro row hrow
    rw [mem_sortByLe] at hrow
    unfold mergePopRows at hrow
    rcases List.mem_map.1 hrow with ⟨t, ht, hteq⟩
    unfold groupPopByGenre at ht
    rcases List.mem_map.1 ht with ⟨g, hg, rfl⟩
    have hgov : g ∈ ((genreLinkRows db).map Prod.snd).dedup := by
      rw [List.mem_dedup] at hg ⊢
      rcases List.mem_map.1 hg with ⟨p, hp, rfl⟩
      exact List.mem_map.2 ⟨p, mem_artistGenreLinkRows db name p hp, rfl⟩
    have hfind : (groupPopByGenre (genreLinkRows db)).find? (fun o => o.1 = g) =
        some (g, roundTo 2 (listAvg (((genreLinkRows db).filter (fun p => p.2 = g)).map
          (fun p => p.1.popularity))), ((genreLinkRows db).filter (fun p => p.2 = g)).length) := by
      unfold groupPopByGenre
      exact find_map_nodup (((genreLinkRows db).map Prod.snd).dedup)
        (fun g2 => (roundTo 2 (listAvg (((genreLinkRows db).filter (fun p => p.2 = g2)).map
          (fun p => p.1.popularity))), ((genreLinkRows db).filter (fun p => p.2 = g2)).length))
        g (List.nodup_dedup _) hgov
    rw [hfind] at hteq
    subst hteq
    refine ⟨rfl, rfl, ?_⟩
    exact ⟨of_decide_eq_true, decide_eq_true⟩
  · have hs := sorted_sortByLe
      (fun (r1 r2 : ArtistPopRow) => decide (r2.artistPopularity ≤ r1.artistPopularity))
      (fun a b => by
        rcases le_total b.artistPopularity a.artistPopularity with h | h
        · exact Or.inl (decide_eq_true h)
        · exact Or.inr (decide_eq_true h))
      (fun a b c hab hbc =>
        decide_eq_true (le_trans (of_decide_eq_true hbc) (of_decide_eq_true hab)))
      (mergePopRows (groupPopByGenre (artistGenreLinkRows db name))
        (groupPopByGenre (genreLinkRows db)))
    exact hs.imp (fun h => of_decide_eq_true h)

/-- Database used by the artist-popularity witness: the artist A has one Pop
song of popularity 70, the artist B one Pop song of popularity 30, so the
global Pop average is 50 and the difference for A is 20. -/
def dbArtistPop : Database :=
  ⟨[(1, "A"), (2, "B")], [(1, "Pop")],
    [⟨1, "s1", 2010, 70, 1/2, 1/2, 1⟩, ⟨2, "s2", 2010, 30, 1/2, 1/2, 2⟩],
    [(1, 1), (2, 1)]⟩

/-- C7 (witness): the artist-popularity property applied to the concrete
store `dbArtistPop` and the artist A. -/
theorem c7_artist_popularity_witness :
    ∃ rows, get_artist_popularity dbArtistPop "A" = some rows ∧
      (∀ row ∈ rows,
        row.artistPopularity = roundTo 2 (listAvg
          (((artistGenreLinkRows dbArtistPop "A").filter (fun p => p.2 = row.genre)).map
            (fun p => p.1.popularity))) ∧
        row.difference = some (roundTo 2 (listAvg
            (((artistGenreLinkRows dbArtistPop "A").filter (fun p => p.2 = row.genre)).map
              (fun p => p.1.popularity))) -
          roundTo 2 (listAvg
            (((genreLinkRows dbArtistPop).filter (fun p => p.2 = row.genre)).map
              (fun p => p.1.popularity)))) ∧
        (row.aboveMean = true ↔ 0 < roundTo 2 (listAvg
            (((artistGenreLinkRows dbArtistPop "A").filter (fun p => p.2 = row.genre)).map
              (fun p => p.1.popularity))) -
          roundTo 2 (listAvg
            (((genreLinkRows dbArtistPop).filter (fun p => p.2 = row.genre)).map
              (fun p => p.1.popularity))))) ∧
      rows.Pairwise (fun r1 r2 => r2.artistPopularity ≤ r1.artistPopularity) :=
  c7_artist_popularity dbArtistPop "A" (by decide)

theorem filter_flatMap_key [DecidableEq κ] (names : List κ) (blk : κ → List α) (key : α → κ)
    (a : κ) (hnd : names.Nodup) (ha : a ∈ names)
    (hblk : ∀ a2 r, r ∈ blk a2 → key r = a2) :
    (names.flatMap blk).filter (fun r => key r = a) = blk a := by
  induction names with
  | nil => cases ha
  | cons b bs ih =>
    rw [List.flatMap_cons, List.filter_append]
    rcases List.mem_cons.1 ha with rfl | ha2
    · have h1 : (blk a).filter (fun r => key r = a) = blk a := by
        rw [List.filter_eq_self]
        intro r hr
        exact decide_eq_true (hblk a r hr)
      have hanotin : a ∉ bs := (List.nodup_cons.1 hnd).1
      have h2 : (bs.flatMap blk).filter (fun r => key r = a) = [] := by
        rw [List.filter_eq_nil_iff]
        intro r hr hkey
        rcases List.mem_flatMap.1 hr with ⟨a2, ha2, hra2⟩
        have hk2 := hblk a2 r hra2
        exact hanotin ((hk2.symm.trans (of_decide_eq_true hkey)) ▸ ha2)
      rw [h1, h2, List.append_nil]
    · have hba : b ≠ a := by
        rintro rfl
        exact (List.nodup_cons.1 hnd).1 ha2
      have h1 : (blk b).filter (fun r => key r = a) = [] := by
        rw [List.filter_eq_nil_iff]
        intro r hr hkey
        exact hba ((hblk b r hr).symm.trans (of_decide_eq_true hkey))
      rw [h1, List.nil_append]
      exact ih (List.nodup_cons.1 hnd).2 ha2

theorem filterMap_filter_key [DecidableEq κ] (ys : List κ) (f : κ → Option α) (key : α → κ)
    (y : κ) (hnd : ys.Nodup) (hy : y ∈ ys)
    (hf : ∀ y2 r, f y2 = some r → key r = y2) :
    (ys.filterMap f).filter (fun r => key r = y) = (f y).toList := by
  induction ys with
  | nil => cases hy
  | cons b bs ih =>
    rw [List.filterMap_cons]
    rcases List.mem_cons.1 hy with rfl | hy2
    · have hnotin : y ∉ bs := (List.nodup_cons.1 hnd).1
      have hrest : (bs.filterMap f).filter (fun r => key r = y) = [] := by
        rw [List.filter_eq_nil_iff]
        intro r hr hkey
        rcases List.mem_filterMap.1 hr with ⟨y2, hy2, hfy2⟩
        exact hnotin (((hf y2 r hfy2).symm.trans (of_decide_eq_true hkey)) ▸ hy2)
      cases hfy : f y with
      | none => simpa using hrest
      | some r =>
        have hkr : key r = y := hf y r hfy
        simp [List.filter_cons, hkr, hrest]
    · have hby : b ≠ y := by
        rintro rfl
        exact (List.nodup_cons.1 hnd).1 hy2
      have htail := ih (List.nodup_cons.1 hnd).2 hy2
      cases hfb : f b with
      | none => simpa using htail
      | some r =>
        have hkr : ¬ key r = y := by
          rw [hf b r hfb]
          exact hby
        simp [List.filter_cons, hkr, htail]

theorem filterMap_ite (P : α → Prop) [DecidablePred P] (g : α → β) (l : List α) :
    (l.filterMap (fun x => if P x then none else some (g x))) =
      (l.filter (fun x => !(decide (P x)))).map g := by
  induction l with
  | nil => rfl
  | cons a as ih =>
    by_cases h : P a
    · simp [List.filterMap_cons, List.filter_cons, h, ih]
    · simp [List.filterMap_cons, List.filter_cons, h, ih]

theorem listAvg_single (x : ℚ) : listAvg [x] = x := by
  unfold listAvg
  simp

theorem rankRowOf_some (db : Database) (s e : ℤ) (w : RankingWeights) (a : String) (y : ℤ)
    (r : YearRankRow) (h : rankRowOf db s e w a y = some r) :
    r.artist = a ∧ r.year = y ∧ r.rankValue = rankAt db s e a y w ∧
      (songsOfAY db s e a y).length ≠ 0 := by
  unfold rankRowOf at h
  split at h
  · cases h
  · rename_i hc
    injection h with h2
    subst h2
    exact ⟨rfl, rfl, rfl, hc⟩

theorem rankRowOf_none (db : Database) (s e : ℤ) (w : RankingWeights) (a : String) (y : ℤ)
    (h : rankRowOf db s e w a y = none) : (songsOfAY db s e a y).length = 0 := by
  unfold rankRowOf at h
  split at h
  · assumption
  · cases h

theorem mem_rankRows_spec (db : Database) (s e : ℤ) (w : RankingWeights) (r : YearRankRow)
    (h : r ∈ rankRows db s e w) :
    r.artist ∈ rankArtists db s e ∧ r.year ∈ yearsBetween s e ∧
      rankRowOf db s e w r.artist r.year = some r := by
  unfold rankRows at h
  rcases List.mem_flatMap.1 h with ⟨a, ha, hr⟩
  rcases List.mem_filterMap.1 hr with ⟨y, hy, hf⟩
  obtain ⟨h1, h2, _, _⟩ := rankRowOf_some db s e w a y r hf
  refine ⟨h1 ▸ ha, h2 ▸ hy, ?_⟩
  rw [h1, h2]
  exact hf

theorem yearsBetween_nodup (s e : ℤ) : (yearsBetween s e).Nodup := by
  unfold yearsBetween
  have hinj : Function.Injective (fun i : ℕ => s + (i : ℤ)) := by
    intro i j hij
    dsimp only at hij
    omega
  exact List.Nodup.map hinj (List.nodup_range _)

theorem rankRows_filter_artist (db : Database) (s e : ℤ) (w : RankingWeights) (a : String)
    (ha : a ∈ rankArtists db s e) :
    (rankRows db s e w).filter (fun r => r.artist = a)
      = (yearsBetween s e).filterMap (rankRowOf db s e w a) := by
  unfold rankRows
  refine filter_flatMap_key (rankArtists db s e) _ YearRankRow.artist a
    (List.nodup_dedup _) ha ?_
  intro a2 r hr
  rcases List.mem_filterMap.1 hr with ⟨y, _, hf⟩
  exact (rankRowOf_some db s e w a2 y r hf).1

theorem rankRows_filter_artist_year (db : Database) (s e : ℤ) (w : RankingWeights)
    (a : String) (y : ℤ) (ha : a ∈ rankArtists db s e) (hy : y ∈ yearsBetween s e) :
    (rankRows db s e w).filter (fun r => r.artist = a && r.year = y)
      = (rankRowOf db s e w a y).toList := by
  have h1 : (rankRows db s e w).filter (fun r => r.artist = a && r.year = y)
      = ((rankRows db s e w).filter (fun r => r.artist = a)).filter (fun r => r.year = y) := by
    rw [List.filter_filter]
    refine List.filter_congr ?_
    intro r _
    exact Bool.and_comm _ _
  rw [h1, rankRows_filter_artist db s e w a ha]
  refine filterMap_filter_key (yearsBetween s e) _ YearRankRow.year y
    (yearsBetween_nodup s e) hy ?_
  intro y2 r hf
  exact (rankRowOf_some db s e w a y2 r hf).2.1

theorem pivotCell_eval (db : Database) (s e : ℤ) (w : RankingWeights) (a : String) (y : ℤ)
    (hatop : (top_artists db s e w).any (fun t => t.artist = a) = true)
    (haR : a ∈ rankArtists db s e) (hy : y ∈ yearsBetween s e) :
    pivotCell db s e w a y =
      if (songsOfAY db s e a y).length = 0 then none else some (rankAt db s e a y w) := by
  unfold pivotCell
  have hm : (pivotRows db s e w).filter (fun r => r.artist = a && r.year = y)
      = (rankRowOf db s e w a y).toList := by
    unfold pivotRows
    rw [List.filter_filter]
    have hcong : ∀ r ∈ rankRows db s e w,
        (((r.artist = a && r.year = y : Bool)) &&
          ((top_artists db s e w).any (fun t => t.artist = r.artist)))
          = ((r.artist = a && r.year = y : Bool)) := by
      intro r _
      by_cases hra : r.artist = a
      · rw [hra, hatop, Bool.and_true]
      · simp [hra]
    rw [List.filter_congr hcong]
    exact rankRows_filter_artist_year db s e w a y haR hy
  rw [hm]
  cases hro : rankRowOf db s e w a y with
  | none =>
    rw [if_pos (rankRowOf_none db s e w a y hro)]
    rfl
  | some r =>
    obtain ⟨_, _, hrv, hlen⟩ := rankRowOf_some db s e w a y r hro
    rw [if_neg hlen]
    show (if ([r].map YearRankRow.rankValue).length = 0 then (none : Option ℚ)
      else some (listAvg ([r].map YearRankRow.rankValue))) = _
    rw [if_neg (by simp)]
    rw [show [r].map YearRankRow.rankValue = [r.rankValue] from rfl, listAvg_single, hrv]

theorem mem_artistTotals (rows : List YearRankRow) (t : ArtistTotal)
    (h : t ∈ artistTotals rows) :
    t.totalRank = ((rows.filter (fun r => r.artist = t.artist)).map YearRankRow.rankValue).sum ∧
    t.artist ∈ rows.map YearRankRow.artist := by
  unfold artistTotals at h
  rcases List.mem_map.1 h with ⟨a2, ha2, rfl⟩
  exact ⟨rfl, List.mem_dedup.1 ha2⟩

theorem mem_top_artists_totals (db : Database) (s e : ℤ) (w : RankingWeights) (t : ArtistTotal)
    (h : t ∈ top_artists db s e w) : t ∈ artistTotals (rankRows db s e w) := by
  unfold top_artists at h
  exact (mem_sortByLe _ _ t).1 (List.take_subset 5 _ h)

theorem top_artist_mem_rankArtists (db : Database) (s e : ℤ) (w : RankingWeights)
    (t : ArtistTotal) (h : t ∈ top_artists db s e w) : t.artist ∈ rankArtists db s e := by
  obtain ⟨_, hmem⟩ := mem_artistTotals _ t (mem_top_artists_totals db s e w t h)
  rcases List.mem_map.1 hmem with ⟨r, hr, hra⟩
  exact hra ▸ (mem_rankRows_spec db s e w r hr).1

theorem mem_pivotCols_spec (db : Database) (s e : ℤ) (w : RankingWeights) (y : ℤ)
    (hy : y ∈ pivotCols db s e w) :
    y ∈ yearsBetween s e ∧
    ∃ t ∈ top_artists db s e w, (songsOfAY db s e t.artist y).length ≠ 0 := by
  unfold pivotCols at hy
  rcases List.mem_map.1 (List.mem_dedup.1 hy) with ⟨r, hr, hry⟩
  unfold pivotRows at hr
  rw [List.mem_filter] at hr
  obtain ⟨hrRank, hrAny⟩ := hr
  obtain ⟨haR, hyB, hsome⟩ := mem_rankRows_spec db s e w r hrRank
  rcases List.any_eq_true.1 hrAny with ⟨t, ht, hta⟩
  refine ⟨hry ▸ hyB, t, ht, ?_⟩
  have hlen := (rankRowOf_some db s e w r.artist r.year r hsome).2.2.2
  rw [hry] at hlen
  rw [of_decide_eq_true hta]
  exact hlen

set_option maxHeartbeats 800000 in
/-- C8: in the top-artist ranking output, for a top artist and a year column
of the pivot, the pivot cell is null exactly when the artist has no songs
in that year (never zero); every top artist's total rank value is the sum
of the per-year rank values over exactly the years of the range in which
the artist has songs; and the cell of the appended Average row is the mean
of the rank values of the top artists that have data in that year only. -/
theorem c8_pivot_semantics (db : Database) (s e : ℤ) (w : RankingWeights) (a : String) (y : ℤ)
    (ha : a ∈ (top_artists db s e w).map ArtistTotal.artist)
    (hy : y ∈ pivotCols db s e w) :
    (pivotCell db s e w a y = none ↔ songsOfAY db s e a y = []) ∧
    (∀ t ∈ top_artists db s e w, t.totalRank =
      (((yearsBetween s e).filter
        (fun y2 => !decide ((songsOfAY db s e t.artist y2).length = 0))).map
        (fun y2 => rankAt db s e t.artist y2 w)).sum) ∧
    (averageRow db s e w y = some (listAvg
      (((top_artists db s e w).filter
        (fun t => !decide ((songsOfAY db s e t.artist y).length = 0))).map
        (fun t => rankAt db s e t.artist y w)))) := by
  rcases List.mem_map.1 ha with ⟨t0, ht0, ht0a⟩
  have hatop : (top_artists db s e w).any (fun t => t.artist = a) = true :=
    List.any_eq_true.2 ⟨t0, ht0, decide_eq_true ht0a⟩
  have haR : a ∈ rankArtists db s e :=
    ht0a ▸ top_artist_mem_rankArtists db s e w t0 ht0
  obtain ⟨hyB, tW, htW, htWlen⟩ := mem_pivotCols_spec db s e w y hy
  refine ⟨?_, ?_, ?_⟩
  · rw [pivotCell_eval db s e w a y hatop haR hyB]
    by_cases hz : (songsOfAY db s e a y).length = 0
    · rw [if_pos hz]
      exact ⟨fun _ => List.length_eq_zero.1 hz, fun _ => rfl⟩
    · rw [if_neg hz]
      constructor
      · intro hcontra
        cases hcontra
      · intro hnil
        exact absurd (by rw [hnil]; rfl) hz
  · intro t ht
    obtain ⟨hsum, _⟩ := mem_artistTotals _ t (mem_top_artists_totals db s e w t ht)
    have haRt : t.artist ∈ rankArtists db s e := top_artist_mem_rankArtists db s e w t ht
    rw [hsum, rankRows_filter_artist db s e w t.artist haRt]
    rw [show rankRowOf db s e w t.artist = (fun y2 =>
      if (songsOfAY db s e t.artist y2).length = 0 then none
      else some (⟨t.artist, y2, (songsOfAY db s e t.artist y2).length,
        roundTo 2 (listAvg ((songsOfAY db s e t.artist y2).map (fun p => p.2.popularity))),
        rankAt db s e t.artist y2 w⟩ : YearRankRow)) from rfl]
    rw [filterMap_ite (fun y2 => (songsOfAY db s e t.artist y2).length = 0) _ (yearsBetween s e)]
    rw [List.map_map]
    refine congrArg List.sum ?_
    exact List.map_congr_left (fun y2 _ => rfl)
  · unfold averageRow
    have hpoint : ∀ t ∈ top_artists db s e w,
        pivotCell db s e w t.artist y = (fun t2 : ArtistTotal =>
          if (songsOfAY db s e t2.artist y).length = 0 then none
          else some (rankAt db s e t2.artist y w)) t := by
      intro t ht
      refine pivotCell_eval db s e w t.artist y ?_
        (top_artist_mem_rankArtists db s e w t ht) hyB
      exact List.any_eq_true.2 ⟨t, ht, decide_eq_true rfl⟩
    rw [List.filterMap_congr hpoint]
    rw [filterMap_ite (fun t : ArtistTotal => (songsOfAY db s e t.artist y).length = 0)
      (fun t => rankAt db s e t.artist y w) (top_artists db s e w)]
    have hne : (((top_artists db s e w).filter
        (fun t => !decide ((songsOfAY db s e t.artist y).length = 0))).map
        (fun t => rankAt db s e t.artist y w)).length ≠ 0 := by
      have htWf : tW ∈ (top_artists db s e w).filter
          (fun t => !decide ((songsOfAY db s e t.artist y).length = 0)) := by
        rw [List.mem_filter]
        exact ⟨htW, by simp [htWlen]⟩
      rw [List.length_map]
      intro hzero
      rw [List.length_eq_zero.1 hzero] at htWf
      cases htWf
    rw [if_neg hne]

/-- Default ranking weights of the analysis: 0.4 for volume, 0.6 for
popularity. -/
def wDefault : RankingWeights := ⟨2/5, 3/5⟩

/-- Database used by the ranking-pivot witness: one artist with one song of
2010 and one song of 2012, and no song of 2011, over the range 2010-2012. -/
def dbPivot : Database :=
  ⟨[(1, "A")], [(1, "Pop")],
    [⟨1, "s1", 2010, 60, 1/2, 1/2, 1⟩, ⟨2, "s2", 2012, 70, 1/2, 1/2, 1⟩],
    [(1, 1), (2, 1)]⟩

/-- C8 (witness): the pivot semantics applied to the concrete store
`dbPivot` over the years 2010 to 2012 with the default weights. -/
theorem c8_pivot_semantics_witness :
    (pivotCell dbPivot 2010 2012 wDefault "A" 2010 = none ↔
      songsOfAY dbPivot 2010 2012 "A" 2010 = []) ∧
    (∀ t ∈ top_artists dbPivot 2010 2012 wDefault, t.totalRank =
      (((yearsBetween 2010 2012).filter
        (fun y2 => !decide ((songsOfAY dbPivot 2010 2012 t.artist y2).length = 0))).map
        (fun y2 => rankAt dbPivot 2010 2012 t.artist y2 wDefault)).sum) ∧
    (averageRow dbPivot 2010 2012 wDefault 2010 = some (listAvg
      (((top_artists dbPivot 2010 2012 wDefault).filter
        (fun t => !decide ((songsOfAY dbPivot 2010 2012 t.artist 2010).length = 0))).map
        (fun t => rankAt dbPivot 2010 2012 t.artist 2010 wDefault)))) :=
  c8_pivot_semantics dbPivot 2010 2012 wDefault "A" 2010 (by decide) (by decide)

theorem insertSongGenres_ok (sid : ℕ) (gids : List ℕ) (tbl : List (ℕ × ℕ))
    (hfresh : ∀ g ∈ gids, (sid, g) ∉ tbl) (hnd : gids.Nodup) :
    insertSongGenres sid gids tbl = .ok (tbl ++ gids.map (fun g => (sid, g))) := by
  induction gids generalizing tbl with
  | nil => simp [insertSongGenres]
  | cons g rest ih =>
    rw [insertSongGenres, if_neg (hfresh g (List.mem_cons_self g rest))]
    rw [ih (tbl ++ [(sid, g)]) ?_ (List.nodup_cons.1 hnd).2]
    · rw [List.append_assoc]
      rfl
    · intro g2 hg2 hmem
      rcases List.mem_append.1 hmem with hmem | hmem
      · exact hfresh g2 (List.mem_cons_of_mem g hg2) hmem
      · have hgg : g2 = g := congrArg Prod.snd (List.mem_singleton.1 hmem)
        exact (List.nodup_cons.1 hnd).1 (hgg ▸ hg2)

theorem loadSongsAux_ok (gs : List String) (recs : List SongRecord) (nextId : ℕ)
    (songs : List (ℕ × SongRecord)) (links : List (ℕ × ℕ))
    (hg : ∀ r ∈ recs, (r.genres.map (genreIdOf gs)).Nodup)
    (hfresh : ∀ p ∈ links, p.1 < nextId)
    (hlnd : links.Nodup) :
    ∃ songs2 links2, loadSongsAux gs recs nextId songs links = .ok (songs2, links2) ∧
      songs2.length = songs.length + recs.length ∧
      links2.length = links.length + (recs.map (fun r => r.genres.length)).sum ∧
      links2.Nodup := by
  induction recs generalizing nextId songs links with
  | nil => exact ⟨songs, links, rfl, by simp, by simp, hlnd⟩
  | cons r rest ih =>
    have hfresh2 : ∀ g ∈ r.genres.map (genreIdOf gs), (nextId, g) ∉ links := by
      intro g _ hmem
      exact absurd (hfresh _ hmem) (lt_irrefl nextId)
    have hstep : loadSongsAux gs (r :: rest) nextId songs links =
        loadSongsAux gs rest (nextId + 1) (songs ++ [(nextId, r)])
          (links ++ (r.genres.map (genreIdOf gs)).map (fun g => (nextId, g))) := by
      rw [loadSongsAux,
        insertSongGenres_ok nextId _ links hfresh2 (hg r (List.mem_cons_self r rest))]
    have hfresh3 : ∀ p ∈ links ++ (r.genres.map (genreIdOf gs)).map (fun g => (nextId, g)),
        p.1 < nextId + 1 := by
      intro p hp
      rcases List.mem_append.1 hp with hp | hp
      · exact Nat.lt_succ_of_lt (hfresh p hp)
      · rcases List.mem_map.1 hp with ⟨g, _, rfl⟩
        exact Nat.lt_succ_self nextId
    have hnd3 : (links ++ (r.genres.map (genreIdOf gs)).map (fun g => (nextId, g))).Nodup := by
      refine List.Nodup.append hlnd ?_ ?_
      · refine List.Nodup.map ?_ (hg r (List.mem_cons_self r rest))
        intro g1 g2 hgg
        exact congrArg Prod.snd hgg
      · intro p hp1 hp2
        rcases List.mem_map.1 hp2 with ⟨g, hgm, rfl⟩
        exact hfresh2 g hgm hp1
    obtain ⟨songs2, links2, heq, hs, hl, hnd2⟩ :=
      ih (nextId + 1) (songs ++ [(nextId, r)])
        (links ++ (r.genres.map (genreIdOf gs)).map (fun g => (nextId, g)))
        (fun r2 hr2 => hg r2 (List.mem_cons_of_mem r hr2)) hfresh3 hnd3
    refine ⟨songs2, links2, hstep.trans heq, ?_, ?_, hnd2⟩
    · rw [hs, List.length_append]
      simp [Nat.add_assoc, Nat.add_comm 1 rest.length]
    · rw [hl, List.length_append, List.length_map, List.length_map, List.map_cons,
        List.sum_cons]
      omega

theorem genreIds_nodup (recs : List SongRecord) (r : SongRecord) (hr : r ∈ recs)
    (hnd : r.genres.Nodup) :
    (r.genres.map (genreIdOf ((allGenreLabels recs).dedup))).Nodup := by
  refine List.Nodup.map_on ?_ hnd
  intro g1 hg1 g2 hg2 heq
  have hmem : ∀ g ∈ r.genres, g ∈ (allGenreLabels recs).dedup := by
    intro g hg
    rw [List.mem_dedup]
    unfold allGenreLabels
    exact List.mem_flatten.2 ⟨r.genres, List.mem_map_of_mem _ hr, hg⟩
  unfold genreIdOf at heq
  exact (List.indexOf_inj (hmem g1 hg1) (hmem g2 hg2)).1 (Nat.add_right_cancel heq)

/-- C1 (amended): loading N cleaned, filtered records in which no record
lists the same genre twice produces exactly N Song rows and exactly the
sum over records of the number of genres per record SongGenre rows, and no
song is linked to the same genre twice; the loader performs no intra-record
genre de-duplication, so a record that does list the same genre twice
aborts the whole load with a uniqueness violation on the SongGenre key
instead of collapsing the duplicate. -/
theorem c1_load_counts (recs : List SongRecord)
    (h : ∀ r ∈ recs, r.genres.Nodup) :
    ∃ db2 : LoadedDb, create_and_populate_database recs = .ok db2 ∧
      db2.songRows.length = recs.length ∧
      db2.songGenreRows.length = (recs.map (fun r => r.genres.length)).sum ∧
      db2.songGenreRows.Nodup := by
  have hg : ∀ r ∈ recs, (r.genres.map (genreIdOf ((allGenreLabels recs).dedup))).Nodup :=
    fun r hr => genreIds_nodup recs r hr (h r hr)
  obtain ⟨songs2, links2, heq, hs, hl, hnd⟩ :=
    loadSongsAux_ok ((allGenreLabels recs).dedup) recs 1 [] [] hg
      (by intro p hp; cases hp) List.nodup_nil
  refine ⟨⟨(recs.map SongRecord.artist).dedup, (allGenreLabels recs).dedup, songs2, links2⟩,
    ?_, by simpa using hs, by simpa using hl, hnd⟩
  unfold create_and_populate_database
  dsimp only
  rw [heq]

/-- C1 (witness): the load-count property applied to two duplicate-free
records. -/
theorem c1_load_counts_witness :
    ∃ db2 : LoadedDb, create_and_populate_database [recRetained, recSpeechHigh] = .ok db2 ∧
      db2.songRows.length = [recRetained, recSpeechHigh].length ∧
      db2.songGenreRows.length =
        ([recRetained, recSpeechHigh].map (fun r => r.genres.length)).sum ∧
      db2.songGenreRows.Nodup :=
  c1_load_counts [recRetained, recSpeechHigh] (by decide)

/-- Record whose cleaned genre field lists the same genre twice, as the
cleaning stage produces for the raw genre string "Pop, Pop". -/
def recDupGenre : SongRecord :=
  ⟨"Artist E", "Song 5", 240, false, 2014, .num 60, .num (1/2), .num (1/2),
    clean_genres "Pop, Pop"⟩

/-- C1 (counterexample): the cleaning stage keeps the duplicate genre of the
raw value "Pop, Pop", and loading the resulting single record does not
produce one Song row and one de-duplicated SongGenre row: the whole load
aborts with a SongGenre uniqueness violation. -/
theorem c1_load_counts_counterexample :
    clean_genres "Pop, Pop" = ["Pop", "Pop"] ∧
    create_and_populate_database [recDupGenre] =
      .error "UNIQUE constraint failed: SongGenre.SongID, SongGenre.GenreID" ∧
    (create_and_populate_database [recDupGenre]).isOk = false := by
  exact ⟨by decide, rfl, rfl⟩
